import Mathlib

/-!
Verification of the `streamlit_gsheets` connector
(`src/streamlit_gsheets/gsheets_connection.py`).

The repository's own logic is thin orchestration around external
collaborators (gspread, duckdb, pandas, streamlit's cache).  We embed that
orchestration shallowly:

* external library calls (`gspread` opens/reads, `duckdb` execution,
  `pandas.read_csv`, `urlparse`/`parse_qs`, `validators.url`) are modelled
  as fields of an `Env` structure whose results drive the embedded control
  flow;
* the connector's own string parsing (the `\/d\/.+?(?=\/)` and `gid=\w+`
  regular expressions of `_get_download_as_csv_url`) is implemented
  concretely on character lists;
* Python exceptions become `Except GSError`;
* the side effects performed against the spreadsheet API are recorded as a
  trace of `ApiAction`s, success results are `Except.ok (value, trace)`;
* Python truthiness of optional strings (`if not spreadsheet`) is modelled
  by `pyTruthy` (both `None` and `""` are falsy).

The streamlit `cache_data` decorator is transparent pass-through caching
(spec section 5) and is not modelled.
-/

/-- A tabular result (rows of cells), the abstraction of a pandas DataFrame. -/
abbrev Table := List (List String)

/-- A worksheet (single tab) of a spreadsheet document, as surfaced by gspread. -/
structure WorksheetData where
  title : String
  data : Table
deriving DecidableEq, Repr

/-- A spreadsheet document, as surfaced by gspread: an ordered list of worksheets. -/
structure SpreadsheetData where
  title : String
  worksheets : List WorksheetData
deriving DecidableEq, Repr

/-- Errors raised by the connector or propagated from the libraries it calls. -/
inductive GSError where
  /-- `gspread.client.SpreadsheetNotFound` -/
  | spreadsheetNotFound
  /-- `gspread.exceptions.WorksheetNotFound`, raised by
  `Spreadsheet.worksheet(title)` / `Spreadsheet.get_worksheet(index)`
  (gspread >= 5.8.0, pinned in setup.py) when the lookup fails. -/
  | worksheetNotFound
  /-- Python `ValueError(msg)` -/
  | valueError (msg : String)
  /-- `UnsupportedOperationException(msg)` from the public client -/
  | unsupportedOperation (msg : String)
  /-- any other Python exception (e.g. `AttributeError` on `None`) -/
  | pyError
deriving DecidableEq, Repr

/-- Side effects performed against the external spreadsheet API / HTTP layer. -/
inductive ApiAction where
  /-- `gspread.Client.open_by_url(url)` -/
  | openByUrl (url : String)
  /-- `gspread.Client.open(title=..., folder_id=...)` -/
  | openByTitle (title : String) (folderId : Option String)
  /-- `gspread.Client.create(title=..., folder_id=...)` -/
  | createSpreadsheet (title : Option String) (folderId : Option String)
  /-- `Spreadsheet.add_worksheet(title=..., rows=..., cols=...)` -/
  | addWorksheet (title : Option String) (rows cols : Nat)
  /-- `Worksheet.clear()` -/
  | clearWorksheet (w : WorksheetData)
  /-- `gspread_dataframe.set_with_dataframe(worksheet, data)` -/
  | setWithDataframe (w : WorksheetData) (data : Table)
  /-- `gspread_formatting.dataframe.format_with_dataframe(worksheet, data)` -/
  | formatWithDataframe (w : WorksheetData) (data : Table)
  /-- `gspread_dataframe.get_as_dataframe(worksheet)` -/
  | getAsDataframe (w : WorksheetData)
  /-- `pandas.read_csv(url)` on a public CSV-export URL -/
  | fetchCsv (url : String)
deriving DecidableEq, Repr

/-- Actions that mutate the spreadsheet (anything other than a read/open). -/
def isWriteAction : ApiAction → Bool
  | ApiAction.createSpreadsheet _ _ => true
  | ApiAction.addWorksheet _ _ _ => true
  | ApiAction.clearWorksheet _ => true
  | ApiAction.setWithDataframe _ _ => true
  | ApiAction.formatWithDataframe _ _ => true
  | _ => false

/-- Result of `urlparse` + `parse_qs` on the spreadsheet string, as consumed by
`GSheetsPublicSpreadsheetClient._get_download_as_csv_url`:
`isUrl` models `validate_url(spreadsheet)` succeeding, `queryGids` models
`parse_qs(urlparse(spreadsheet).query).get("gid", [])`, and `fragment` models
`urlparse(spreadsheet).fragment`. -/
structure UrlParts where
  isUrl : Bool
  queryGids : List String
  fragment : String
deriving DecidableEq, Repr

/-- The external collaborators of the connector, collected in one environment. -/
structure Env where
  /-- `validators.url.url(s)` succeeding (used by `_open_spreadsheet`). -/
  isUrl : String → Bool
  /-- `gspread.Client.open_by_url` -/
  openByUrl : String → Except GSError SpreadsheetData
  /-- `gspread.Client.open(title, folder_id)` -/
  openByTitle : String → Option String → Except GSError SpreadsheetData
  /-- spreadsheet returned by `gspread.Client.create` -/
  createdSheet : SpreadsheetData
  /-- worksheet returned by `Spreadsheet.add_worksheet(title, rows, cols)` -/
  addWorksheet : Option String → Nat → Nat → WorksheetData
  /-- `duckdb`: run a SQL text against the set of created tables and
  return the result set of `in_memory_db.sql(query=sql).to_df()`. -/
  duckExec : String → List (String × Table) → Table
  /-- `gspread_dataframe.get_as_dataframe(worksheet)` -/
  readWs : WorksheetData → Table
  /-- `pandas.read_csv(url)` -/
  readCsv : String → Table
  /-- `urlparse`/`parse_qs`/`validators.url` on a spreadsheet string -/
  parse : String → UrlParts

/-- Python truthiness of an `Optional[str]`: `None` and `""` are falsy. -/
def pyTruthy : Option String → Bool
  | Option.none => false
  | Option.some s => !s.isEmpty

/-- `x or y` on Python optional strings: keep `x` when truthy, else `y`. -/
def pyOr (x y : Option String) : Option String :=
  if pyTruthy x then x else y

/-- The recurring defaulting statement
`if not folder_id and self._worksheet: folder_id = self._worksheet`. -/
def substFolder (folderId dflt : Option String) : Option String :=
  if !pyTruthy folderId && pyTruthy dflt then dflt else folderId

/-- Connection configuration extracted in `GSheetsClient.__init__` via
`secrets_dict.pop("spreadsheet", None)` / `secrets_dict.pop("worksheet", None)`. -/
structure ClientConfig where
  spreadsheet : Option String
  worksheet : Option String
deriving DecidableEq, Repr

/-- The `type` key is kept alongside; the raw secrets dictionary. -/
structure SecretsDict where
  typeField : Option String
  spreadsheet : Option String
  worksheet : Option String
deriving DecidableEq, Repr

/-- `GSheetsClient` configuration from the secrets (after the two pops). -/
def configOf (s : SecretsDict) : ClientConfig :=
  { spreadsheet := s.spreadsheet, worksheet := s.worksheet }

/-- The two client variants that `GSheetsConnection._connect` can build. -/
inductive ClientKind where
  | serviceAccount
  | publicSheet
deriving DecidableEq, Repr

/-- `GSheetsConnection._connect`: dispatch on
`secrets_dict.get("type", None) == "service_account"`. -/
def connect (s : SecretsDict) : ClientKind :=
  if s.typeField = Option.some "service_account" then ClientKind.serviceAccount
  else ClientKind.publicSheet

/-- Worksheet identifier in the public client: Python `str | int | None`. -/
inductive WsIdent where
  | wsNone
  | str (s : String)
  | num (n : Int)
deriving DecidableEq, Repr

/-- Python truthiness of a `str | int | None` worksheet identifier. -/
def wsTruthy : WsIdent → Bool
  | WsIdent.wsNone => false
  | WsIdent.str s => !s.isEmpty
  | WsIdent.num n => n != 0

/-- How a worksheet identifier prints inside the `&gid={...}` f-string. -/
def wsRender : WsIdent → String
  | WsIdent.wsNone => "None"
  | WsIdent.str s => s
  | WsIdent.num n => toString n

/-- A character of the `\w` class of the `gid=\w+` regular expression. -/
def isWordChar (c : Char) : Bool :=
  c.isAlphanum || c == '_'

/-- The tail of a match of `\/d\/.+?(?=\/)` given the characters standing after
an occurrence of `/d/`: the lazy `.+?` consumes at least one character, up to
(not including) the next `/`; `.` does not match a newline. Returns the match
without its `/d/` prefix (i.e. `found_ids[0][3:]`), or `Option.none` when the
lookahead never succeeds at this occurrence. -/
def dSegAfter : List Char → Option (List Char)
  | [] => Option.none
  | c :: rest =>
    if rest.contains '/' then
      if (c :: rest.takeWhile (fun x => x ≠ '/')).contains '\n' then Option.none
      else Option.some (c :: rest.takeWhile (fun x => x ≠ '/'))
    else Option.none

/-- `re.findall(r"\/d\/.+?(?=\/)", s)`, first match, stripped of `/d/`:
scan left to right; at each `/d/` occurrence try `dSegAfter`; on failure the
engine advances one character. -/
def findDMatch : List Char → Option (List Char)
  | [] => Option.none
  | c :: rest =>
    match c, rest with
    | '/', 'd' :: '/' :: tail =>
      match dSegAfter tail with
      | Option.some seg => Option.some seg
      | Option.none => findDMatch rest
    | _, _ => findDMatch rest

/-- `re.findall(r"gid=\w+", fragment)`, first match, stripped of `gid=`
(i.e. `found_gids[0][4:]`); the greedy `\w+` takes the longest word run. -/
def findGid : List Char → Option (List Char)
  | [] => Option.none
  | c :: rest =>
    match c, rest with
    | 'g', 'i' :: 'd' :: '=' :: tail =>
      if (tail.takeWhile isWordChar).isEmpty then findGid rest
      else Option.some (tail.takeWhile isWordChar)
    | _, _ => findGid rest

/-- The fall-back URL of `_get_download_as_csv_url` when the input is not a
well-formed URL (or lacks a `/d/<id>/` segment): the input itself is the key. -/
def bareCsvUrl (raw : String) (ws : WsIdent) : String :=
  if wsTruthy ws then
    "https://docs.google.com/spreadsheet/ccc?key=" ++ raw ++ "&output=csv&gid="
      ++ wsRender ws
  else
    "https://docs.google.com/spreadsheet/ccc?key=" ++ raw ++ "&output=csv"

/-- `GSheetsPublicSpreadsheetClient._get_download_as_csv_url`, statement for
statement: validate the URL, extract the key with the `\/d\/` regex, collect a
gid from the fragment, else from the query string, override it with a truthy
`worksheet` argument, and assemble the CSV-export URL; any validation failure
falls back to `bareCsvUrl`. -/
def csvUrl (raw : String) (parts : UrlParts) (ws : WsIdent) : String :=
  if parts.isUrl then
    match findDMatch raw.toList with
    | Option.none => bareCsvUrl raw ws
    | Option.some seg =>
      match
        (if wsTruthy ws then Option.some (wsRender ws)
         else
           match (findGid parts.fragment.toList).map String.mk with
           | Option.some g => Option.some g
           | Option.none =>
             match parts.queryGids with
             | [] => Option.none
             | g :: _ => Option.some g) with
      | Option.some g =>
        if g.isEmpty then
          "https://docs.google.com/spreadsheet/ccc?key=" ++ String.mk seg
            ++ "&output=csv"
        else
          "https://docs.google.com/spreadsheet/ccc?key=" ++ String.mk seg
            ++ "&output=csv&gid=" ++ g
      | Option.none =>
        "https://docs.google.com/spreadsheet/ccc?key=" ++ String.mk seg
          ++ "&output=csv"
  else bareCsvUrl raw ws

/-- Gid selection as claim C5 words it: the explicit worksheet argument
whenever one is supplied, else the fragment gid, else the query-string gid. -/
def claimGid (parts : UrlParts) (ws : WsIdent) : Option String :=
  if ws ≠ WsIdent.wsNone then Option.some (wsRender ws)
  else
    match (findGid parts.fragment.toList).map String.mk with
    | Option.some g => Option.some g
    | Option.none => parts.queryGids.head?

/-- Gid selection as amended: the explicit worksheet argument only when it is
truthy (a nonzero integer or a nonempty string), else the fragment gid, else
the query-string gid; an empty gid counts as absent. -/
def amendGid (parts : UrlParts) (ws : WsIdent) : Option String :=
  if wsTruthy ws then Option.some (wsRender ws)
  else
    match (findGid parts.fragment.toList).map String.mk with
    | Option.some g => Option.some g
    | Option.none => parts.queryGids.head?

/-- Assemble the CSV-export URL from a key and an optional gid; an empty gid
is omitted (it is falsy at the final `if final_gid:` check). -/
def assembleUrl (key : String) (gid : Option String) : String :=
  match gid with
  | Option.some g =>
    if g.isEmpty then
      "https://docs.google.com/spreadsheet/ccc?key=" ++ key ++ "&output=csv"
    else
      "https://docs.google.com/spreadsheet/ccc?key=" ++ key
        ++ "&output=csv&gid=" ++ g
  | Option.none =>
    "https://docs.google.com/spreadsheet/ccc?key=" ++ key ++ "&output=csv"

/-- Public URL resolution as claim C5 states it. -/
def claimCsvUrl (raw : String) (parts : UrlParts) (ws : WsIdent) : String :=
  if parts.isUrl then
    match findDMatch raw.toList with
    | Option.some seg => assembleUrl (String.mk seg) (claimGid parts ws)
    | Option.none => bareCsvUrl raw ws
  else bareCsvUrl raw ws

/-- Public URL resolution as amended (truthy worksheet argument wins). -/
def amendCsvUrl (raw : String) (parts : UrlParts) (ws : WsIdent) : String :=
  if parts.isUrl then
    match findDMatch raw.toList with
    | Option.some seg => assembleUrl (String.mk seg) (amendGid parts ws)
    | Option.none => bareCsvUrl raw ws
  else bareCsvUrl raw ws

/-- The `Optional[Union[str, Spreadsheet]]` argument of the authenticated
client's methods: `None`, a string, or an already-opened `Spreadsheet`. -/
inductive SpreadArg where
  | noArg
  | str (s : String)
  | obj (sd : SpreadsheetData)
deriving DecidableEq, Repr

/-- Python truthiness of the spreadsheet argument; a gspread `Spreadsheet`
defines neither `__bool__` nor `__len__`, so the object is always truthy. -/
def spreadTruthy : SpreadArg → Bool
  | SpreadArg.noArg => false
  | SpreadArg.str s => !s.isEmpty
  | SpreadArg.obj _ => true

/-- The recurring defaulting statement
`if not spreadsheet and self._spreadsheet: spreadsheet = self._spreadsheet`. -/
def substSpread (arg : SpreadArg) (dflt : Option String) : SpreadArg :=
  if !spreadTruthy arg && pyTruthy dflt then SpreadArg.str (dflt.getD "") else arg

/-- The `Optional[Union[str, int, Worksheet]]` worksheet argument of the
authenticated client's methods. -/
inductive WsArg where
  | noArg
  | str (s : String)
  | idx (i : Int)
  | obj (w : WorksheetData)
deriving DecidableEq, Repr

/-- Whether the worksheet argument is not an already-selected `Worksheet`. -/
def wsNotObj : WsArg → Bool
  | WsArg.obj _ => false
  | _ => true

/-- A gspread `Worksheet` defines neither `__bool__` nor `__len__`, so
`if not self._select_worksheet(...)` can never fire on a returned object. -/
def wsObjTruthy (_w : WorksheetData) : Bool := true

/-- `Spreadsheet.worksheet(title)`: find the worksheet by title, raising
`WorksheetNotFound` when no worksheet has that title. -/
def findWorksheet (sd : SpreadsheetData) (title : String) :
    Except GSError WorksheetData :=
  match sd.worksheets.find? (fun w => w.title == title) with
  | Option.some w => Except.ok w
  | Option.none => Except.error GSError.worksheetNotFound

/-- Total companion of `findWorksheet`, used to state results. -/
def findWsD (sd : SpreadsheetData) (title : String) : WorksheetData :=
  match sd.worksheets.find? (fun w => w.title == title) with
  | Option.some w => w
  | Option.none => { title := "", data := [] }

/-- `Spreadsheet.get_worksheet(index)`: Python list indexing (negative indices
count from the end), raising `WorksheetNotFound` out of range. -/
def getWorksheetAt (sd : SpreadsheetData) (i : Int) :
    Except GSError WorksheetData :=
  if (if i < 0 then (sd.worksheets.length : Int) + i else i) < 0 then
    Except.error GSError.worksheetNotFound
  else
    match sd.worksheets.get?
        (if i < 0 then (sd.worksheets.length : Int) + i else i).toNat with
    | Option.some w => Except.ok w
    | Option.none => Except.error GSError.worksheetNotFound

/-- `GSheetsServiceAccountClient._open_spreadsheet`: pass a `Spreadsheet`
object through, substitute the configured defaults, and open by URL when
`validate_url` succeeds, else by title and folder id.  `validate_url(None)`
raises a `TypeError` that nothing catches there, modelled by `pyError`. -/
def openSpreadsheet (cfg : ClientConfig) (env : Env) (spreadsheet : SpreadArg)
    (folderId : Option String) :
    Except GSError (SpreadsheetData × List ApiAction) :=
  match spreadsheet with
  | SpreadArg.obj sd => Except.ok (sd, [])
  | sparg =>
    match substSpread sparg cfg.spreadsheet with
    | SpreadArg.str t =>
      if env.isUrl t then
        match env.openByUrl t with
        | Except.ok sd => Except.ok (sd, [ApiAction.openByUrl t])
        | Except.error e => Except.error e
      else
        match env.openByTitle t (substFolder folderId cfg.worksheet) with
        | Except.ok sd =>
          Except.ok (sd, [ApiAction.openByTitle t (substFolder folderId cfg.worksheet)])
        | Except.error e => Except.error e
    | _ => Except.error GSError.pyError

/-- The spreadsheet-resolution prefix of `_select_worksheet`: substitute the
defaults and open the spreadsheet when (after defaulting) it is a string;
a `None` spreadsheet later fails with an `AttributeError` (`pyError`). -/
def spreadForSelect (cfg : ClientConfig) (env : Env) (spreadsheet : SpreadArg)
    (folderId : Option String) :
    Except GSError (SpreadsheetData × List ApiAction) :=
  match substSpread spreadsheet cfg.spreadsheet with
  | SpreadArg.str t =>
    openSpreadsheet cfg env (SpreadArg.str t) (substFolder folderId cfg.worksheet)
  | SpreadArg.obj sd => Except.ok (sd, [])
  | SpreadArg.noArg => Except.error GSError.pyError

/-- `GSheetsServiceAccountClient._select_worksheet`: pass a `Worksheet` object
through, substitute the defaults, open the spreadsheet when it is a string,
then select by title for a string argument and by index otherwise
(`if not worksheet: worksheet = 0`). -/
def selectWorksheet (cfg : ClientConfig) (env : Env) (spreadsheet : SpreadArg)
    (worksheet : WsArg) (folderId : Option String) :
    Except GSError (WorksheetData × List ApiAction) :=
  match worksheet with
  | WsArg.obj w => Except.ok (w, [])
  | wsarg =>
    match spreadForSelect cfg env spreadsheet folderId with
    | Except.error e => Except.error e
    | Except.ok (sd, tr) =>
      match wsarg with
      | WsArg.str t =>
        match findWorksheet sd t with
        | Except.ok w => Except.ok (w, tr)
        | Except.error e => Except.error e
      | WsArg.idx i =>
        match getWorksheetAt sd i with
        | Except.ok w => Except.ok (w, tr)
        | Except.error e => Except.error e
      | _ =>
        match getWorksheetAt sd 0 with
        | Except.ok w => Except.ok (w, tr)
        | Except.error e => Except.error e

/-- `GSheetsServiceAccountClient.read`: substitute defaults (the configured
`worksheet` value becomes the `folder_id`!), select the worksheet, and return
`get_as_dataframe` of it. -/
def serviceRead (cfg : ClientConfig) (env : Env) (spreadsheet : SpreadArg)
    (worksheet : WsArg) (folderId : Option String) :
    Except GSError (Table × List ApiAction) :=
  match
    selectWorksheet cfg env (substSpread spreadsheet cfg.spreadsheet) worksheet
      (substFolder folderId cfg.worksheet) with
  | Except.ok (w, tr) =>
    Except.ok (env.readWs w, tr ++ [ApiAction.getAsDataframe w])
  | Except.error e => Except.error e

/-- The table-materialization loop of `GSheetsServiceAccountClient.query`:
for each table name parsed out of the SQL string, select the worksheet of that
name (raising when it does not exist, since a returned `Worksheet` is always
truthy), read it, and create a duckdb table of that name holding the data. -/
def buildTables (cfg : ClientConfig) (env : Env) (spreadsheet : SpreadArg)
    (folderId : Option String) :
    List String → Except GSError (List (String × Table) × List ApiAction)
  | [] => Except.ok ([], [])
  | name :: rest =>
    match selectWorksheet cfg env spreadsheet (WsArg.str name) folderId with
    | Except.error e => Except.error e
    | Except.ok (w, tr1) =>
      if wsObjTruthy w then
        match serviceRead cfg env spreadsheet (WsArg.str name) folderId with
        | Except.error e => Except.error e
        | Except.ok (t, tr2) =>
          match buildTables cfg env spreadsheet folderId rest with
          | Except.error e => Except.error e
          | Except.ok (tbls, tr3) =>
            Except.ok ((name, t) :: tbls, tr1 ++ tr2 ++ tr3)
      else
        match buildTables cfg env spreadsheet folderId rest with
        | Except.error e => Except.error e
        | Except.ok (tbls, tr3) => Except.ok ((name, []) :: tbls, tr1 ++ tr3)

/-- A SQL string together with `sql_metadata.Parser(sql).tables`, the table
names the external parser extracts from it. -/
structure SqlQuery where
  text : String
  tables : List String
deriving DecidableEq, Repr

/-- `GSheetsServiceAccountClient.query`: substitute defaults, materialize one
duckdb table per referenced name, then execute the SQL against them. -/
def serviceQuery (cfg : ClientConfig) (env : Env) (sql : SqlQuery)
    (spreadsheet : SpreadArg) (folderId : Option String) :
    Except GSError (Table × List ApiAction) :=
  match
    buildTables cfg env (substSpread spreadsheet cfg.spreadsheet)
      (substFolder folderId cfg.worksheet) sql.tables with
  | Except.error e => Except.error e
  | Except.ok (tbls, tr) => Except.ok (env.duckExec sql.text tbls, tr)

/-- The classification of the `data` argument performed by `create`/`update`:
`streamlit.type_util.is_dataframe_compatible(data)` (converted via
`convert_anything_to_df`), else `type(data) is ndarray` (converted via
`DataFrame.from_records`), else neither. The converted table is carried. -/
inductive DataArg where
  | compatible (t : Table)
  | nd (t : Table)
  | other
deriving DecidableEq, Repr

/-- `GSheetsServiceAccountClient.create`.  Note the defaulting: the `else`
branch raises whenever `spreadsheet` is truthy, i.e. exactly when the caller
did pass one. -/
def serviceCreate (cfg : ClientConfig) (env : Env) (spreadsheet : Option String)
    (worksheet : Option String) (data : DataArg) (folderId : Option String) :
    Except GSError (Option Table × List ApiAction) :=
  if !pyTruthy spreadsheet && pyTruthy cfg.spreadsheet then
    match
      (match openSpreadsheet cfg env
          (match cfg.spreadsheet with
           | Option.some t => SpreadArg.str t
           | Option.none => SpreadArg.noArg)
          (substFolder folderId cfg.worksheet) with
       | Except.error GSError.spreadsheetNotFound =>
         Except.ok (env.createdSheet,
           [ApiAction.createSpreadsheet cfg.spreadsheet
             (substFolder folderId cfg.worksheet)])
       | r => r) with
    | Except.error e => Except.error e
    | Except.ok (_, tr) =>
      match data with
      | DataArg.compatible t =>
        Except.ok (Option.some t,
          tr ++ [ApiAction.addWorksheet worksheet t.length (t.headD []).length,
            ApiAction.setWithDataframe
              (env.addWorksheet worksheet t.length (t.headD []).length) t,
            ApiAction.formatWithDataframe
              (env.addWorksheet worksheet t.length (t.headD []).length) t])
      | DataArg.nd t =>
        Except.ok (Option.some t,
          tr ++ [ApiAction.addWorksheet worksheet t.length (t.headD []).length,
            ApiAction.setWithDataframe
              (env.addWorksheet worksheet t.length (t.headD []).length) t,
            ApiAction.formatWithDataframe
              (env.addWorksheet worksheet t.length (t.headD []).length) t])
      | DataArg.other =>
        Except.ok (Option.none, tr ++ [ApiAction.addWorksheet worksheet 0 0])
  else Except.error (GSError.valueError "Spreadsheet must be specified")

/-- `if isinstance(spreadsheet, str): spreadsheet = self._open_spreadsheet(...)`
inside `update`. -/
def resolveSpread (cfg : ClientConfig) (env : Env) (spreadsheet : SpreadArg)
    (folderId : Option String) :
    Except GSError (SpreadArg × List ApiAction) :=
  match spreadsheet with
  | SpreadArg.str s =>
    match openSpreadsheet cfg env (SpreadArg.str s) folderId with
    | Except.ok (sd, tr) => Except.ok (SpreadArg.obj sd, tr)
    | Except.error e => Except.error e
  | a => Except.ok (a, [])

/-- `GSheetsServiceAccountClient.update`: substitute defaults, open the
spreadsheet, select the worksheet, classify the data; for convertible data
clear the selected worksheet (always truthy) and then write and format it;
otherwise return `None` having performed no mutation. -/
def serviceUpdate (cfg : ClientConfig) (env : Env) (spreadsheet : SpreadArg)
    (worksheet : WsArg) (data : DataArg) (folderId : Option String) :
    Except GSError (Option Table × List ApiAction) :=
  match
    resolveSpread cfg env (substSpread spreadsheet cfg.spreadsheet)
      (substFolder folderId cfg.worksheet) with
  | Except.error e => Except.error e
  | Except.ok (sp2, tr0) =>
    match
      selectWorksheet cfg env sp2 worksheet
        (substFolder folderId cfg.worksheet) with
    | Except.error e => Except.error e
    | Except.ok (w, tr1) =>
      match data with
      | DataArg.compatible t =>
        Except.ok (Option.some t,
          tr0 ++ tr1
            ++ (if wsObjTruthy w then [ApiAction.clearWorksheet w] else [])
            ++ [ApiAction.setWithDataframe w t, ApiAction.formatWithDataframe w t])
      | DataArg.nd t =>
        Except.ok (Option.some t,
          tr0 ++ tr1
            ++ (if wsObjTruthy w then [ApiAction.clearWorksheet w] else [])
            ++ [ApiAction.setWithDataframe w t, ApiAction.formatWithDataframe w t])
      | DataArg.other => Except.ok (Option.none, tr0 ++ tr1)

/-- `GSheetsServiceAccountClient.clear`: no defaulting of its own, select the
worksheet (which substitutes the defaults) and call `Worksheet.clear()`. -/
def serviceClear (cfg : ClientConfig) (env : Env) (spreadsheet : SpreadArg)
    (worksheet : WsArg) (folderId : Option String) :
    Except GSError (Unit × List ApiAction) :=
  match selectWorksheet cfg env spreadsheet worksheet folderId with
  | Except.ok (w, tr) => Except.ok ((), tr ++ [ApiAction.clearWorksheet w])
  | Except.error e => Except.error e

/-- Worksheet defaulting of `GSheetsPublicSpreadsheetClient.read`:
`if not worksheet and self._worksheet: worksheet = self._worksheet`. -/
def substWs (w : WsIdent) (dflt : Option String) : WsIdent :=
  if !wsTruthy w && pyTruthy dflt then WsIdent.str (dflt.getD "") else w

/-- Worksheet defaulting of `GSheetsPublicSpreadsheetClient.query`:
`worksheet = worksheet or self._worksheet`. -/
def pyOrWs (w : WsIdent) (dflt : Option String) : WsIdent :=
  if wsTruthy w then w
  else
    match dflt with
    | Option.some s => WsIdent.str s
    | Option.none => WsIdent.wsNone

/-- `GSheetsPublicSpreadsheetClient.read`: default the spreadsheet, raise a
`ValueError` when none is available, default the worksheet, build the
CSV-export URL, and fetch it. -/
def publicRead (cfg : ClientConfig) (env : Env) (spreadsheet : Option String)
    (worksheet : WsIdent) : Except GSError (Table × List ApiAction) :=
  if pyTruthy (pyOr spreadsheet cfg.spreadsheet) = false then
    Except.error (GSError.valueError "Spreadsheet must be specified")
  else
    Except.ok
      (env.readCsv
        (csvUrl ((pyOr spreadsheet cfg.spreadsheet).getD "")
          (env.parse ((pyOr spreadsheet cfg.spreadsheet).getD ""))
          (substWs worksheet cfg.worksheet)),
       [ApiAction.fetchCsv
         (csvUrl ((pyOr spreadsheet cfg.spreadsheet).getD "")
           (env.parse ((pyOr spreadsheet cfg.spreadsheet).getD ""))
           (substWs worksheet cfg.worksheet))])

/-- The single CSV-export URL that `GSheetsPublicSpreadsheetClient.query`
resolves before its table loop. -/
def publicQueryUrl (cfg : ClientConfig) (env : Env) (spreadsheet : Option String)
    (worksheet : WsIdent) : String :=
  csvUrl ((pyOr spreadsheet cfg.spreadsheet).getD "")
    (env.parse ((pyOr spreadsheet cfg.spreadsheet).getD ""))
    (pyOrWs worksheet cfg.worksheet)

/-- `GSheetsPublicSpreadsheetClient.query`: default spreadsheet and worksheet,
raise when no spreadsheet is available, resolve one CSV-export URL, then
create one duckdb table per name parsed from the SQL — every one populated
with the same fetched CSV — and execute the SQL. -/
def publicQuery (cfg : ClientConfig) (env : Env) (sql : SqlQuery)
    (spreadsheet : Option String) (worksheet : WsIdent) :
    Except GSError (Table × List ApiAction) :=
  if pyTruthy (pyOr spreadsheet cfg.spreadsheet) = false then
    Except.error (GSError.valueError "Spreadsheet must be specified")
  else
    Except.ok
      (env.duckExec sql.text
        (sql.tables.map
          (fun n => (n, env.readCsv (publicQueryUrl cfg env spreadsheet worksheet)))),
       sql.tables.map
         (fun _ => ApiAction.fetchCsv (publicQueryUrl cfg env spreadsheet worksheet)))

/-- `GSheetsPublicSpreadsheetClient.create`: unconditionally raises. -/
def publicCreate (_spreadsheet _worksheet : Option String) (_data : DataArg)
    (_folderId : Option String) : Except GSError (Option Table × List ApiAction) :=
  Except.error (GSError.unsupportedOperation
    "Use Service Account authentication to enable CRUD methods on your Spreadsheets.")

/-- `GSheetsPublicSpreadsheetClient.update`: unconditionally raises. -/
def publicUpdate (_spreadsheet : SpreadArg) (_worksheet : WsArg) (_data : DataArg)
    (_folderId : Option String) : Except GSError (Option Table × List ApiAction) :=
  Except.error (GSError.unsupportedOperation
    "Public Spreadsheet cannot be written to, use Service Account authentication to enable CRUD methods on your Spreadsheets.")

/-- `GSheetsPublicSpreadsheetClient.clear`: unconditionally raises. -/
def publicClear (_spreadsheet : SpreadArg) (_worksheet : WsArg)
    (_folderId : Option String) : Except GSError (Unit × List ApiAction) :=
  Except.error (GSError.unsupportedOperation
    "Public Spreadsheet cannot be cleared, use Service Account authentication to enable CRUD methods on your Spreadsheets.")

/-- Concrete worksheet fixture. -/
def wsA : WorksheetData := { title := "A", data := [["1"]] }

/-- Concrete worksheet fixture. -/
def wsB : WorksheetData := { title := "B", data := [["2"]] }

/-- Concrete spreadsheet fixture with two worksheets. -/
def doc0 : SpreadsheetData := { title := "Doc", worksheets := [wsA, wsB] }

/-- Concrete environment: every title resolves to `doc0`, the duckdb engine
returns the data of the last created table, and the public CSV export always
serves worksheet `A`'s data (the grid selected by the export URL). -/
def envOk : Env :=
  { isUrl := fun _ => false
    openByUrl := fun _ => Except.error GSError.spreadsheetNotFound
    openByTitle := fun _ _ => Except.ok doc0
    createdSheet := doc0
    addWorksheet := fun _ _ _ => { title := "New", data := [] }
    duckExec := fun _ tbls => (tbls.getLastD ("", [])).2
    readWs := fun w => w.data
    readCsv := fun _ => wsA.data
    parse := fun _ => { isUrl := false, queryGids := [], fragment := "" } }

/-- Concrete environment in which the spreadsheet API reports every
open-by-title as `SpreadsheetNotFound`. -/
def envNotFound : Env :=
  { envOk with openByTitle := fun _ _ => Except.error GSError.spreadsheetNotFound }

/-- The table part of a query result, when the query succeeded. -/
def resultTable (r : Except GSError (Table × List ApiAction)) : Option Table :=
  match r with
  | Except.ok (t, _) => Option.some t
  | Except.error _ => Option.none

/-- C6: every call of `create`, `update` or `clear` on the public-URL client,
whatever its arguments, raises `UnsupportedOperationException` with the fixed
explanatory message of that method and performs no API action. -/
theorem public_crud_rejected (sp1 w1 : Option String) (d1 : DataArg)
    (f1 : Option String) (sp2 : SpreadArg) (w2 : WsArg) (d2 : DataArg)
    (f2 : Option String) (sp3 : SpreadArg) (w3 : WsArg) (f3 : Option String) :
    publicCreate sp1 w1 d1 f1 = Except.error (GSError.unsupportedOperation
      "Use Service Account authentication to enable CRUD methods on your Spreadsheets.")
    ∧ publicUpdate sp2 w2 d2 f2 = Except.error (GSError.unsupportedOperation
      "Public Spreadsheet cannot be written to, use Service Account authentication to enable CRUD methods on your Spreadsheets.")
    ∧ publicClear sp3 w3 f3 = Except.error (GSError.unsupportedOperation
      "Public Spreadsheet cannot be cleared, use Service Account authentication to enable CRUD methods on your Spreadsheets.") :=
  ⟨rfl, rfl, rfl⟩

/-- C8: `_connect` builds the service-account client exactly when the `type`
key of the configuration equals `"service_account"`, and the public client
otherwise. -/
theorem connect_dispatch (s : SecretsDict) :
    (connect s = ClientKind.serviceAccount
      ↔ s.typeField = Option.some "service_account")
    ∧ (connect s = ClientKind.publicSheet
      ↔ ¬s.typeField = Option.some "service_account") := by
  by_cases h : s.typeField = Option.some "service_account" <;>
    simp [connect, h]

/-- C9: a connection whose configuration has no `spreadsheet` key and no
credential-type marker is the public client, and its `read` without a
spreadsheet argument raises `ValueError("Spreadsheet must be specified")`. -/
theorem read_no_config_raises (w : Option String) (env : Env) (ws : WsIdent) :
    connect { typeField := Option.none, spreadsheet := Option.none, worksheet := w }
      = ClientKind.publicSheet
    ∧ publicRead
        (configOf { typeField := Option.none, spreadsheet := Option.none, worksheet := w })
        env Option.none ws
      = Except.error (GSError.valueError "Spreadsheet must be specified") := by
  constructor
  · rfl
  · rfl

/-- C2: the code does not materialize a missing worksheet as an empty table:
`doc0` has no worksheet `"Missing"`, and the authenticated `query` on a SQL
string referencing `"Missing"` fails with `WorksheetNotFound` (raised by the
gspread title lookup before the falsy-worksheet guard can run). -/
theorem query_missing_worksheet_raises :
    findWorksheet doc0 "Missing" = Except.error GSError.worksheetNotFound
    ∧ serviceQuery { spreadsheet := Option.some "Doc", worksheet := Option.none }
        envOk { text := "select * from Missing", tables := ["Missing"] }
        SpreadArg.noArg Option.none
      = Except.error GSError.worksheetNotFound := by
  constructor
  · rfl
  · rfl

/-- C3: the authenticated `create` raises
`ValueError("Spreadsheet must be specified")` precisely when the caller DOES
pass a spreadsheet argument (here `"Other"`, with a default configured), and
proceeds without raising when the argument is omitted and the configured
default exists. -/
theorem create_raises_when_specified :
    serviceCreate { spreadsheet := Option.some "Doc", worksheet := Option.none }
        envOk (Option.some "Other") Option.none DataArg.other Option.none
      = Except.error (GSError.valueError "Spreadsheet must be specified")
    ∧ serviceCreate { spreadsheet := Option.some "Doc", worksheet := Option.none }
        envOk Option.none Option.none DataArg.other Option.none
      = Except.ok (Option.none,
          [ApiAction.openByTitle "Doc" Option.none,
           ApiAction.addWorksheet Option.none 0 0]) := by
  constructor
  · rfl
  · rfl

/-- Concrete public spreadsheet URL fixture. -/
def rawX : String := "https://docs.google.com/spreadsheets/d/KEY123/edit"

/-- Parsed form of `rawX` carrying a fragment gid `55`. -/
def partsX : UrlParts := { isUrl := true, queryGids := [], fragment := "gid=55" }

/-- C5 counterexample: with an explicit worksheet argument `0` (a legitimate
grid id) and a fragment gid `55`, the code ignores the falsy argument and uses
the fragment gid, while the claim gives the explicit argument precedence. -/
theorem csv_url_zero_gid_counterexample :
    csvUrl rawX partsX (WsIdent.num 0)
      = "https://docs.google.com/spreadsheet/ccc?key=KEY123&output=csv&gid=55"
    ∧ claimCsvUrl rawX partsX (WsIdent.num 0)
      = "https://docs.google.com/spreadsheet/ccc?key=KEY123&output=csv&gid=0"
    ∧ csvUrl rawX partsX (WsIdent.num 0) ≠ claimCsvUrl rawX partsX (WsIdent.num 0) := by
  refine ⟨rfl, rfl, ?_⟩
  decide

/-- C5 amended: public URL resolution equals the claimed construction once the
worksheet argument only takes precedence when truthy (nonzero, nonempty) and
an empty gid counts as absent. -/
theorem csv_url_amended_spec (raw : String) (parts : UrlParts) (ws : WsIdent) :
    csvUrl raw parts ws = amendCsvUrl raw parts ws := by
  cases hu : parts.isUrl <;>
    simp only [csvUrl, amendCsvUrl, amendGid, assembleUrl, hu, Bool.false_eq_true,
      if_false, if_true, ite_true, ite_false]
  cases hm : findDMatch raw.toList
  · rfl
  · cases ht : wsTruthy ws
    · cases hg : findGid parts.fragment.toList
      · cases hq : parts.queryGids <;> simp [List.head?]
      · simp
    · simp

/-- Every API action recorded by a successful `_open_spreadsheet` is a read. -/
theorem openSpreadsheet_no_write {cfg : ClientConfig} {env : Env}
    {sp : SpreadArg} {fid : Option String} {sd : SpreadsheetData}
    {tr : List ApiAction}
    (h : openSpreadsheet cfg env sp fid = Except.ok (sd, tr)) :
    ∀ a ∈ tr, isWriteAction a = false := by
  unfold openSpreadsheet at h
  repeat' split at h
  all_goals simp_all [isWriteAction]
  all_goals obtain ⟨-, rfl⟩ := h
  all_goals (intro a ha; rw [List.mem_singleton] at ha; subst ha; rfl)

/-- Every API action recorded by the resolution prefix of
`_select_worksheet` is a read. -/
theorem spreadForSelect_no_write {cfg : ClientConfig} {env : Env}
    {sp : SpreadArg} {fid : Option String} {sd : SpreadsheetData}
    {tr : List ApiAction}
    (h : spreadForSelect cfg env sp fid = Except.ok (sd, tr)) :
    ∀ a ∈ tr, isWriteAction a = false := by
  unfold spreadForSelect at h
  split at h
  · exact openSpreadsheet_no_write h
  · simp_all
  · simp_all

/-- Every API action recorded by a successful `_select_worksheet` is a read. -/
theorem selectWorksheet_no_write {cfg : ClientConfig} {env : Env}
    {sp : SpreadArg} {ws : WsArg} {fid : Option String} {w : WorksheetData}
    {tr : List ApiAction}
    (h : selectWorksheet cfg env sp ws fid = Except.ok (w, tr)) :
    ∀ a ∈ tr, isWriteAction a = false := by
  unfold selectWorksheet at h
  split at h
  · simp_all
  · split at h
    · simp_all
    · rename_i sdtr sd1 tr1 heq
      repeat' split at h
      all_goals simp_all
      all_goals exact spreadForSelect_no_write heq

/-- Every API action recorded by the `resolveSpread` step of `update` is a
read. -/
theorem resolveSpread_no_write {cfg : ClientConfig} {env : Env}
    {sp : SpreadArg} {fid : Option String} {sp2 : SpreadArg}
    {tr : List ApiAction}
    (h : resolveSpread cfg env sp fid = Except.ok (sp2, tr)) :
    ∀ a ∈ tr, isWriteAction a = false := by
  unfold resolveSpread at h
  split at h
  · split at h
    · rename_i sdtr sd1 tr1 heq
      simp_all
      exact openSpreadsheet_no_write heq
    · simp_all
  · simp_all

/-- C7: whenever the authenticated `update` succeeds on dataframe-compatible
data it returns that data, and its API trace ends with clearing the selected
worksheet and then writing (and formatting) the data to that same worksheet —
in that order, with only read actions before; and whenever it is called with
data that is neither dataframe-compatible nor an ndarray, it returns `None`
and its trace contains no mutating action at all. -/
theorem update_clear_then_write (cfg : ClientConfig) (env : Env)
    (sp : SpreadArg) (ws : WsArg) (t : Table) (fid : Option String)
    (res res2 : Option Table × List ApiAction) :
    (serviceUpdate cfg env sp ws (DataArg.compatible t) fid = Except.ok res →
      ∃ w pre, res = (Option.some t,
          pre ++ [ApiAction.clearWorksheet w, ApiAction.setWithDataframe w t,
            ApiAction.formatWithDataframe w t])
        ∧ ∀ a ∈ pre, isWriteAction a = false)
    ∧ (serviceUpdate cfg env sp ws DataArg.other fid = Except.ok res2 →
      res2.1 = Option.none ∧ ∀ a ∈ res2.2, isWriteAction a = false) := by
  constructor
  · intro h
    unfold serviceUpdate at h
    cases hr0 : resolveSpread cfg env (substSpread sp cfg.spreadsheet)
        (substFolder fid cfg.worksheet) with
    | error e => rw [hr0] at h; simp at h
    | ok p =>
      obtain ⟨sp2, tr0⟩ := p
      rw [hr0] at h
      dsimp only at h
      cases hs1 : selectWorksheet cfg env sp2 ws (substFolder fid cfg.worksheet) with
      | error e => rw [hs1] at h; simp at h
      | ok q =>
        obtain ⟨w, tr1⟩ := q
        rw [hs1] at h
        dsimp only at h
        simp only [Except.ok.injEq] at h
        refine ⟨w, tr0 ++ tr1, ?_, ?_⟩
        · rw [← h]
          simp [wsObjTruthy]
        · intro a ha
          rcases List.mem_append.mp ha with h1 | h2
          · exact resolveSpread_no_write hr0 a h1
          · exact selectWorksheet_no_write hs1 a h2
  · intro h
    unfold serviceUpdate at h
    cases hr0 : resolveSpread cfg env (substSpread sp cfg.spreadsheet)
        (substFolder fid cfg.worksheet) with
    | error e => rw [hr0] at h; simp at h
    | ok p =>
      obtain ⟨sp2, tr0⟩ := p
      rw [hr0] at h
      dsimp only at h
      cases hs1 : selectWorksheet cfg env sp2 ws (substFolder fid cfg.worksheet) with
      | error e => rw [hs1] at h; simp at h
      | ok q =>
        obtain ⟨w, tr1⟩ := q
        rw [hs1] at h
        dsimp only at h
        simp only [Except.ok.injEq] at h
        rw [← h]
        refine ⟨rfl, ?_⟩
        intro a ha
        rcases List.mem_append.mp ha with h1 | h2
        · exact resolveSpread_no_write hr0 a h1
        · exact selectWorksheet_no_write hs1 a h2

/-- Concrete successful result of `update` with dataframe-compatible data. -/
def updResW : Option Table × List ApiAction :=
  (Option.some [["x"]],
   [ApiAction.openByTitle "Doc" Option.none, ApiAction.clearWorksheet wsA,
    ApiAction.setWithDataframe wsA [["x"]],
    ApiAction.formatWithDataframe wsA [["x"]]])

/-- Concrete successful result of `update` with non-convertible data. -/
def updResW2 : Option Table × List ApiAction :=
  (Option.none, [ApiAction.openByTitle "Doc" Option.none])

/-- Witness for `update_clear_then_write` at a concrete configuration. -/
theorem update_clear_then_write_witness :
    (∃ w pre, updResW = (Option.some [["x"]],
        pre ++ [ApiAction.clearWorksheet w, ApiAction.setWithDataframe w [["x"]],
          ApiAction.formatWithDataframe w [["x"]]])
      ∧ ∀ a ∈ pre, isWriteAction a = false)
    ∧ (updResW2.1 = Option.none ∧ ∀ a ∈ updResW2.2, isWriteAction a = false) :=
  ⟨(update_clear_then_write
      { spreadsheet := Option.some "Doc", worksheet := Option.none } envOk
      SpreadArg.noArg WsArg.noArg [["x"]] Option.none updResW updResW2).1
      rfl,
   (update_clear_then_write
      { spreadsheet := Option.some "Doc", worksheet := Option.none } envOk
      SpreadArg.noArg WsArg.noArg [["x"]] Option.none updResW updResW2).2
      rfl⟩

/-- C10: in the authenticated client, a call of `read`, `query`, `update` or
`clear` without an explicit `folder_id` passes the configured default
`worksheet` value to `gspread.Client.open` as the folder id, and a `read`
without a worksheet argument selects the worksheet at index 0 of the
spreadsheet — never the configured default worksheet. -/
theorem default_worksheet_is_folder_id (cfg : ClientConfig) (env : Env)
    (s fw tn q : String) (sd : SpreadsheetData) (w0 : WorksheetData)
    (rest : List WorksheetData) (wt : WorksheetData)
    (hcw : cfg.worksheet = Option.some fw)
    (hfw : fw.isEmpty = false)
    (hs : s.isEmpty = false)
    (hurl : env.isUrl s = false)
    (hopen : env.openByTitle s (Option.some fw) = Except.ok sd)
    (hws : sd.worksheets = w0 :: rest)
    (hfind : findWorksheet sd tn = Except.ok wt) :
    serviceRead cfg env (SpreadArg.str s) WsArg.noArg Option.none
      = Except.ok (env.readWs w0,
          [ApiAction.openByTitle s (Option.some fw), ApiAction.getAsDataframe w0])
    ∧ serviceQuery cfg env { text := q, tables := [tn] } (SpreadArg.str s)
        Option.none
      = Except.ok (env.duckExec q [(tn, env.readWs wt)],
          [ApiAction.openByTitle s (Option.some fw),
           ApiAction.openByTitle s (Option.some fw), ApiAction.getAsDataframe wt])
    ∧ serviceUpdate cfg env (SpreadArg.str s) (WsArg.str tn) DataArg.other
        Option.none
      = Except.ok (Option.none, [ApiAction.openByTitle s (Option.some fw)])
    ∧ serviceClear cfg env (SpreadArg.str s) (WsArg.str tn) Option.none
      = Except.ok ((),
          [ApiAction.openByTitle s (Option.some fw), ApiAction.clearWorksheet wt]) := by
  have hsub : substSpread (SpreadArg.str s) cfg.spreadsheet = SpreadArg.str s := by
    simp [substSpread, spreadTruthy, hs]
  have hfid : substFolder Option.none cfg.worksheet = Option.some fw := by
    simp [substFolder, pyTruthy, hcw, hfw]
  have hfid2 : substFolder (Option.some fw) cfg.worksheet = Option.some fw := by
    simp [substFolder, pyTruthy, hcw, hfw]
  have hop : openSpreadsheet cfg env (SpreadArg.str s) (Option.some fw)
      = Except.ok (sd, [ApiAction.openByTitle s (Option.some fw)]) := by
    simp [openSpreadsheet, hsub, hfid2, hurl, hopen]
  have hsel0 : selectWorksheet cfg env (SpreadArg.str s) WsArg.noArg
      (Option.some fw) = Except.ok (w0, [ApiAction.openByTitle s (Option.some fw)]) := by
    simp [selectWorksheet, spreadForSelect, hsub, hfid2, hop, getWorksheetAt, hws]
  have hselT : selectWorksheet cfg env (SpreadArg.str s) (WsArg.str tn)
      (Option.some fw) = Except.ok (wt, [ApiAction.openByTitle s (Option.some fw)]) := by
    simp [selectWorksheet, spreadForSelect, hsub, hfid2, hop, hfind]
  have hselTnone : selectWorksheet cfg env (SpreadArg.str s) (WsArg.str tn)
      Option.none = Except.ok (wt, [ApiAction.openByTitle s (Option.some fw)]) := by
    simp [selectWorksheet, spreadForSelect, hsub, hfid, hop, hfind]
  have hselObjT : selectWorksheet cfg env (SpreadArg.obj sd) (WsArg.str tn)
      (Option.some fw) = Except.ok (wt, []) := by
    simp [selectWorksheet, spreadForSelect, substSpread, spreadTruthy, hfind]
  have hreadT : serviceRead cfg env (SpreadArg.str s) (WsArg.str tn)
      (Option.some fw)
      = Except.ok (env.readWs wt,
          [ApiAction.openByTitle s (Option.some fw), ApiAction.getAsDataframe wt]) := by
    simp [serviceRead, hsub, hfid2, hselT]
  have hresolve : resolveSpread cfg env (SpreadArg.str s) (Option.some fw)
      = Except.ok (SpreadArg.obj sd, [ApiAction.openByTitle s (Option.some fw)]) := by
    simp [resolveSpread, hop]
  refine ⟨?_, ?_, ?_, ?_⟩
  · simp [serviceRead, hsub, hfid, hsel0]
  · simp [serviceQuery, buildTables, hsub, hfid, hselT, hreadT, wsObjTruthy]
  · simp [serviceUpdate, hsub, hfid, hresolve, hselObjT]
  · simp [serviceClear, hselTnone]

/-- Witness for `default_worksheet_is_folder_id` at a concrete configuration
whose default worksheet is `"FolderW"`. -/
theorem default_worksheet_is_folder_id_witness :
    serviceRead { spreadsheet := Option.some "Doc", worksheet := Option.some "FolderW" }
        envOk (SpreadArg.str "Doc") WsArg.noArg Option.none
      = Except.ok (envOk.readWs wsA,
          [ApiAction.openByTitle "Doc" (Option.some "FolderW"),
           ApiAction.getAsDataframe wsA])
    ∧ serviceQuery { spreadsheet := Option.some "Doc", worksheet := Option.some "FolderW" }
        envOk { text := "sql", tables := ["B"] } (SpreadArg.str "Doc") Option.none
      = Except.ok (envOk.duckExec "sql" [("B", envOk.readWs wsB)],
          [ApiAction.openByTitle "Doc" (Option.some "FolderW"),
           ApiAction.openByTitle "Doc" (Option.some "FolderW"),
           ApiAction.getAsDataframe wsB])
    ∧ serviceUpdate { spreadsheet := Option.some "Doc", worksheet := Option.some "FolderW" }
        envOk (SpreadArg.str "Doc") (WsArg.str "B") DataArg.other Option.none
      = Except.ok (Option.none, [ApiAction.openByTitle "Doc" (Option.some "FolderW")])
    ∧ serviceClear { spreadsheet := Option.some "Doc", worksheet := Option.some "FolderW" }
        envOk (SpreadArg.str "Doc") (WsArg.str "B") Option.none
      = Except.ok ((),
          [ApiAction.openByTitle "Doc" (Option.some "FolderW"),
           ApiAction.clearWorksheet wsB]) :=
  default_worksheet_is_folder_id
    { spreadsheet := Option.some "Doc", worksheet := Option.some "FolderW" }
    envOk "Doc" "FolderW" "B" "sql" doc0 wsA [wsB] wsB
    rfl rfl rfl rfl rfl rfl rfl

/-- The folder-id defaulting is idempotent. -/
theorem substFolder_idem (f d : Option String) :
    substFolder (substFolder f d) d = substFolder f d := by
  unfold substFolder
  cases hf : pyTruthy f <;> cases hd : pyTruthy d <;> simp [hf, hd]

/-- A nonempty string spreadsheet argument is unchanged by defaulting. -/
theorem substSpread_str {s : String} (d : Option String)
    (hs : s.isEmpty = false) : substSpread (SpreadArg.str s) d = SpreadArg.str s := by
  simp [substSpread, spreadTruthy, hs]

/-- An error reported by `gspread.Client.open` propagates out of
`_open_spreadsheet` for a non-URL string spreadsheet. -/
theorem openSpreadsheet_title_error {cfg : ClientConfig} {env : Env}
    {s : String} {fid : Option String} {e : GSError}
    (hs : s.isEmpty = false) (hurl : env.isUrl s = false)
    (hopen : env.openByTitle s (substFolder fid cfg.worksheet) = Except.error e) :
    openSpreadsheet cfg env (SpreadArg.str s) (substFolder fid cfg.worksheet)
      = Except.error e := by
  simp [openSpreadsheet, substSpread_str _ hs, hurl, substFolder_idem, hopen]

/-- An error reported while opening the spreadsheet propagates out of
`_select_worksheet` whenever the worksheet argument is not an
already-selected `Worksheet` object. -/
theorem selectWorksheet_title_error {cfg : ClientConfig} {env : Env}
    {s : String} {ws : WsArg} {fid : Option String} {e : GSError}
    (hs : s.isEmpty = false) (hurl : env.isUrl s = false)
    (hopen : env.openByTitle s (substFolder fid cfg.worksheet) = Except.error e)
    (hws : wsNotObj ws = true) :
    selectWorksheet cfg env (SpreadArg.str s) ws fid = Except.error e := by
  have hop := @openSpreadsheet_title_error cfg env s fid e hs hurl hopen
  cases ws with
  | obj w => simp [wsNotObj] at hws
  | noArg =>
    simp [selectWorksheet, spreadForSelect, substSpread_str _ hs, substFolder_idem, hop]
  | str t =>
    simp [selectWorksheet, spreadForSelect, substSpread_str _ hs, substFolder_idem, hop]
  | idx i =>
    simp [selectWorksheet, spreadForSelect, substSpread_str _ hs, substFolder_idem, hop]

/-- C4 amended: when `gspread.Client.open` reports `SpreadsheetNotFound`, the
authenticated `read`, `query` (on a SQL string referencing at least one
table), `update` and `clear` let the error propagate to the caller
unmodified; `create`, however, catches it and creates a new spreadsheet with
that title and folder id instead of re-raising. -/
theorem spreadsheet_not_found_propagation :
    (∀ (cfg : ClientConfig) (env : Env) (s : String) (ws : WsArg)
      (fid : Option String),
      s.isEmpty = false → env.isUrl s = false →
      env.openByTitle s (substFolder fid cfg.worksheet)
        = Except.error GSError.spreadsheetNotFound →
      wsNotObj ws = true →
      serviceRead cfg env (SpreadArg.str s) ws fid
        = Except.error GSError.spreadsheetNotFound)
    ∧ (∀ (cfg : ClientConfig) (env : Env) (s q tn : String)
      (rest : List String) (fid : Option String),
      s.isEmpty = false → env.isUrl s = false →
      env.openByTitle s (substFolder fid cfg.worksheet)
        = Except.error GSError.spreadsheetNotFound →
      serviceQuery cfg env { text := q, tables := tn :: rest }
        (SpreadArg.str s) fid = Except.error GSError.spreadsheetNotFound)
    ∧ (∀ (cfg : ClientConfig) (env : Env) (s : String) (ws : WsArg)
      (data : DataArg) (fid : Option String),
      s.isEmpty = false → env.isUrl s = false →
      env.openByTitle s (substFolder fid cfg.worksheet)
        = Except.error GSError.spreadsheetNotFound →
      serviceUpdate cfg env (SpreadArg.str s) ws data fid
        = Except.error GSError.spreadsheetNotFound)
    ∧ (∀ (cfg : ClientConfig) (env : Env) (s : String) (ws : WsArg)
      (fid : Option String),
      s.isEmpty = false → env.isUrl s = false →
      env.openByTitle s (substFolder fid cfg.worksheet)
        = Except.error GSError.spreadsheetNotFound →
      wsNotObj ws = true →
      serviceClear cfg env (SpreadArg.str s) ws fid
        = Except.error GSError.spreadsheetNotFound)
    ∧ (∀ (cfg : ClientConfig) (env : Env) (ds : String) (w : Option String)
      (fid : Option String),
      cfg.spreadsheet = Option.some ds → ds.isEmpty = false →
      env.isUrl ds = false →
      env.openByTitle ds (substFolder fid cfg.worksheet)
        = Except.error GSError.spreadsheetNotFound →
      serviceCreate cfg env Option.none w DataArg.other fid
        = Except.ok (Option.none,
            [ApiAction.createSpreadsheet (Option.some ds)
               (substFolder fid cfg.worksheet),
             ApiAction.addWorksheet w 0 0])) := by
  refine ⟨?_, ?_, ?_, ?_, ?_⟩
  · intro cfg env s ws fid hs hurl hopen hws
    have hopen2 : env.openByTitle s
        (substFolder (substFolder fid cfg.worksheet) cfg.worksheet)
        = Except.error GSError.spreadsheetNotFound := by
      rw [substFolder_idem]; exact hopen
    simp [serviceRead, substSpread_str _ hs,
      selectWorksheet_title_error hs hurl hopen2 hws]
  · intro cfg env s q tn rest fid hs hurl hopen
    have hopen2 : env.openByTitle s
        (substFolder (substFolder fid cfg.worksheet) cfg.worksheet)
        = Except.error GSError.spreadsheetNotFound := by
      rw [substFolder_idem]; exact hopen
    simp [serviceQuery, buildTables, substSpread_str _ hs,
      @selectWorksheet_title_error cfg env s (WsArg.str tn)
        (substFolder fid cfg.worksheet) GSError.spreadsheetNotFound
        hs hurl hopen2 rfl]
  · intro cfg env s ws data fid hs hurl hopen
    simp [serviceUpdate, substSpread_str _ hs, resolveSpread,
      @openSpreadsheet_title_error cfg env s fid GSError.spreadsheetNotFound
        hs hurl hopen]
  · intro cfg env s ws fid hs hurl hopen hws
    simp [serviceClear, selectWorksheet_title_error hs hurl hopen hws]
  · intro cfg env ds w fid hcs hds hurl hopen
    simp [serviceCreate, pyTruthy, hcs, hds,
      @openSpreadsheet_title_error cfg env ds fid GSError.spreadsheetNotFound
        hds hurl hopen]

/-- Witness for `spreadsheet_not_found_propagation` against an environment in
which every open-by-title reports `SpreadsheetNotFound`. -/
theorem spreadsheet_not_found_propagation_witness :
    serviceRead { spreadsheet := Option.some "Doc", worksheet := Option.none }
      envNotFound (SpreadArg.str "Doc") WsArg.noArg Option.none
      = Except.error GSError.spreadsheetNotFound
    ∧ serviceQuery { spreadsheet := Option.some "Doc", worksheet := Option.none }
      envNotFound { text := "sql", tables := ["A"] } (SpreadArg.str "Doc")
      Option.none = Except.error GSError.spreadsheetNotFound
    ∧ serviceUpdate { spreadsheet := Option.some "Doc", worksheet := Option.none }
      envNotFound (SpreadArg.str "Doc") WsArg.noArg
      (DataArg.compatible [["x"]]) Option.none
      = Except.error GSError.spreadsheetNotFound
    ∧ serviceClear { spreadsheet := Option.some "Doc", worksheet := Option.none }
      envNotFound (SpreadArg.str "Doc") (WsArg.str "A") Option.none
      = Except.error GSError.spreadsheetNotFound
    ∧ serviceCreate { spreadsheet := Option.some "Doc", worksheet := Option.none }
      envNotFound Option.none Option.none DataArg.other Option.none
      = Except.ok (Option.none,
          [ApiAction.createSpreadsheet (Option.some "Doc") Option.none,
           ApiAction.addWorksheet Option.none 0 0]) :=
  ⟨spreadsheet_not_found_propagation.1
      { spreadsheet := Option.some "Doc", worksheet := Option.none }
      envNotFound "Doc" WsArg.noArg Option.none rfl rfl rfl rfl,
   spreadsheet_not_found_propagation.2.1
      { spreadsheet := Option.some "Doc", worksheet := Option.none }
      envNotFound "Doc" "sql" "A" [] Option.none rfl rfl rfl,
   spreadsheet_not_found_propagation.2.2.1
      { spreadsheet := Option.some "Doc", worksheet := Option.none }
      envNotFound "Doc" WsArg.noArg (DataArg.compatible [["x"]]) Option.none
      rfl rfl rfl,
   spreadsheet_not_found_propagation.2.2.2.1
      { spreadsheet := Option.some "Doc", worksheet := Option.none }
      envNotFound "Doc" (WsArg.str "A") Option.none rfl rfl rfl rfl,
   spreadsheet_not_found_propagation.2.2.2.2
      { spreadsheet := Option.some "Doc", worksheet := Option.none }
      envNotFound "Doc" Option.none Option.none rfl rfl rfl rfl⟩

/-- C4 counterexample: the spreadsheet API reports `SpreadsheetNotFound` for
every title in `envNotFound`, yet `create` (arguments defaulted from the
configuration) returns successfully — having created a new spreadsheet —
rather than letting the error reach the caller. -/
theorem spreadsheet_not_found_create_counterexample :
    envNotFound.openByTitle "Doc" Option.none
      = Except.error GSError.spreadsheetNotFound
    ∧ serviceCreate { spreadsheet := Option.some "Doc", worksheet := Option.none }
      envNotFound Option.none Option.none DataArg.other Option.none
      = Except.ok (Option.none,
          [ApiAction.createSpreadsheet (Option.some "Doc") Option.none,
           ApiAction.addWorksheet Option.none 0 0])
    ∧ ¬ serviceCreate { spreadsheet := Option.some "Doc", worksheet := Option.none }
      envNotFound Option.none Option.none DataArg.other Option.none
      = Except.error GSError.spreadsheetNotFound := by
  refine ⟨rfl, rfl, fun hcon => ?_⟩
  have h2 : serviceCreate
      { spreadsheet := Option.some "Doc", worksheet := Option.none }
      envNotFound Option.none Option.none DataArg.other Option.none
      = Except.ok (Option.none,
          [ApiAction.createSpreadsheet (Option.some "Doc") Option.none,
           ApiAction.addWorksheet Option.none 0 0]) := rfl
  rw [h2] at hcon
  exact Except.noConfusion hcon

/-- When every referenced name has a worksheet in the opened spreadsheet, the
materialization loop of the authenticated `query` produces exactly one table
per name, populated with `get_as_dataframe` of the worksheet of that name. -/
theorem buildTables_all_found {cfg : ClientConfig} {env : Env} {s : String}
    {fid : Option String} {sd : SpreadsheetData}
    (hs : s.isEmpty = false) (hurl : env.isUrl s = false)
    (hopen : env.openByTitle s (substFolder fid cfg.worksheet) = Except.ok sd) :
    ∀ names : List String,
      (∀ n ∈ names, (sd.worksheets.find? (fun w => w.title == n)).isSome = true) →
      ∃ tr, buildTables cfg env (SpreadArg.str s) fid names
        = Except.ok (names.map (fun n => (n, env.readWs (findWsD sd n))), tr) := by
  intro names
  induction names with
  | nil => intro _; exact ⟨[], rfl⟩
  | cons n rest ih =>
    intro hall
    have hn := hall n (List.mem_cons_self n rest)
    obtain ⟨w, hw⟩ := Option.isSome_iff_exists.mp hn
    have hfind : findWorksheet sd n = Except.ok w := by simp [findWorksheet, hw]
    have hfwd : findWsD sd n = w := by simp [findWsD, hw]
    have hsel : selectWorksheet cfg env (SpreadArg.str s) (WsArg.str n) fid
        = Except.ok (w, [ApiAction.openByTitle s (substFolder fid cfg.worksheet)]) := by
      simp [selectWorksheet, spreadForSelect, substSpread_str _ hs, openSpreadsheet,
        hurl, substFolder_idem, hopen, hfind]
    have hsel2 : selectWorksheet cfg env (SpreadArg.str s) (WsArg.str n)
        (substFolder fid cfg.worksheet)
        = Except.ok (w, [ApiAction.openByTitle s (substFolder fid cfg.worksheet)]) := by
      simp [selectWorksheet, spreadForSelect, substSpread_str _ hs, openSpreadsheet,
        hurl, substFolder_idem, hopen, hfind]
    have hread : serviceRead cfg env (SpreadArg.str s) (WsArg.str n) fid
        = Except.ok (env.readWs w,
            [ApiAction.openByTitle s (substFolder fid cfg.worksheet),
             ApiAction.getAsDataframe w]) := by
      simp [serviceRead, substSpread_str _ hs, hsel2]
    obtain ⟨tr3, htr3⟩ := ih (fun m hm => hall m (List.mem_cons_of_mem _ hm))
    refine ⟨[ApiAction.openByTitle s (substFolder fid cfg.worksheet)]
        ++ [ApiAction.openByTitle s (substFolder fid cfg.worksheet),
            ApiAction.getAsDataframe w] ++ tr3, ?_⟩
    simp [buildTables, hsel, wsObjTruthy, hread, htr3, hfwd]

/-- C1 amended: in the authenticated client, when the spreadsheet opens and
every worksheet name referenced by the SQL string exists, `query` creates one
table per referenced name populated with that worksheet's data and returns
the engine's result over exactly those tables.  In the public client, `query`
also creates one table per referenced name, but populates every one of them
with the same CSV export resolved from the spreadsheet/worksheet arguments —
not with the worksheet of that name. -/
theorem query_tables_amended :
    (∀ (cfg : ClientConfig) (env : Env) (sql : SqlQuery) (s : String)
      (fid : Option String) (sd : SpreadsheetData),
      s.isEmpty = false → env.isUrl s = false →
      env.openByTitle s (substFolder fid cfg.worksheet) = Except.ok sd →
      (∀ n ∈ sql.tables,
        (sd.worksheets.find? (fun w => w.title == n)).isSome = true) →
      ∃ tr, serviceQuery cfg env sql (SpreadArg.str s) fid
        = Except.ok (env.duckExec sql.text
            (sql.tables.map (fun n => (n, env.readWs (findWsD sd n)))), tr))
    ∧ (∀ (cfg : ClientConfig) (env : Env) (sql : SqlQuery)
      (sp : Option String) (ws : WsIdent),
      pyTruthy (pyOr sp cfg.spreadsheet) = true →
      publicQuery cfg env sql sp ws
        = Except.ok (env.duckExec sql.text
            (sql.tables.map (fun n =>
              (n, env.readCsv (publicQueryUrl cfg env sp ws)))),
           sql.tables.map (fun _ =>
             ApiAction.fetchCsv (publicQueryUrl cfg env sp ws)))) := by
  constructor
  · intro cfg env sql s fid sd hs hurl hopen hall
    have hopen2 : env.openByTitle s
        (substFolder (substFolder fid cfg.worksheet) cfg.worksheet)
        = Except.ok sd := by
      rw [substFolder_idem]; exact hopen
    obtain ⟨tr, htr⟩ := buildTables_all_found hs hurl hopen2 sql.tables hall
    refine ⟨tr, ?_⟩
    simp [serviceQuery, substSpread_str _ hs, htr]
  · intro cfg env sql sp ws htrue
    simp [publicQuery, htrue]

/-- Witness for `query_tables_amended`: the authenticated side at `doc0`
(worksheets `A`, `B`) and the public side at a bare key. -/
theorem query_tables_amended_witness :
    (∃ tr, serviceQuery { spreadsheet := Option.some "Doc", worksheet := Option.none }
        envOk { text := "sql", tables := ["A", "B"] } (SpreadArg.str "Doc")
        Option.none
      = Except.ok (envOk.duckExec "sql"
          (["A", "B"].map (fun n => (n, envOk.readWs (findWsD doc0 n)))), tr))
    ∧ publicQuery { spreadsheet := Option.some "u", worksheet := Option.none }
        envOk { text := "sql", tables := ["A", "B"] } (Option.some "u")
        WsIdent.wsNone
      = Except.ok (envOk.duckExec "sql"
          (["A", "B"].map (fun n =>
            (n, envOk.readCsv (publicQueryUrl
              { spreadsheet := Option.some "u", worksheet := Option.none }
              envOk (Option.some "u") WsIdent.wsNone)))),
         ["A", "B"].map (fun _ =>
           ApiAction.fetchCsv (publicQueryUrl
             { spreadsheet := Option.some "u", worksheet := Option.none }
             envOk (Option.some "u") WsIdent.wsNone))) :=
  ⟨query_tables_amended.1
      { spreadsheet := Option.some "Doc", worksheet := Option.none } envOk
      { text := "sql", tables := ["A", "B"] } "Doc" Option.none doc0
      rfl rfl rfl (by decide),
   query_tables_amended.2
      { spreadsheet := Option.some "u", worksheet := Option.none } envOk
      { text := "sql", tables := ["A", "B"] } (Option.some "u") WsIdent.wsNone
      rfl⟩

/-- The SQL fixture referencing two tables. -/
def sqlAB : SqlQuery := { text := "sql", tables := ["A", "B"] }

/-- C1 counterexample: in `envOk` the public CSV export always serves
worksheet `A`'s data `[["1"]]`, while `doc0` has a worksheet named `B` with
data `[["2"]]`; the duckdb engine is instantiated to return the last created
table.  The public `query` over tables `A` and `B` returns `[["1"]]` (table
`B` was populated with the CSV export, not worksheet `B`), whereas executing
the query against tables each populated with the worksheet of its name would
return `[["2"]]`. -/
theorem query_tables_counterexample :
    findWsD doc0 "B" = wsB
    ∧ resultTable (publicQuery
        { spreadsheet := Option.some "u", worksheet := Option.none } envOk
        sqlAB (Option.some "u") WsIdent.wsNone) = Option.some [["1"]]
    ∧ envOk.duckExec sqlAB.text
        (sqlAB.tables.map (fun n => (n, (findWsD doc0 n).data))) = [["2"]]
    ∧ resultTable (publicQuery
        { spreadsheet := Option.some "u", worksheet := Option.none } envOk
        sqlAB (Option.some "u") WsIdent.wsNone)
      ≠ Option.some (envOk.duckExec sqlAB.text
          (sqlAB.tables.map (fun n => (n, (findWsD doc0 n).data)))) := by
  refine ⟨rfl, rfl, rfl, ?_⟩
  decide
